import Mathlib

/-!
Shallow embedding of `src/camera_analysis.py` (a Flask + OpenCV camera
streaming server) for checking its natural-language specification.

The program's interesting state is three module-level globals:
`camera` (an OpenCV `VideoCapture` handle or `None`), `frame_buffer`
(the last captured frame or `None`), and the capture thread's local
`consecutive_failures` counter.  All accesses to `frame_buffer` in the
source are guarded by `buffer_lock`, and all accesses to `camera` by
`camera_lock`, so each operation on the shared state is modelled as an
atomic step.  External collaborators (the V4L2 driver behind
`cv2.VideoCapture` / `camera.set`, and the JPEG encoder behind
`cv2.imencode`) are modelled as oracle parameters (`Driver`, an
`Img → Option (List Nat)` encoder), since their behaviour is outside
the program.
-/

namespace CameraCheck

/-- A captured frame: `camera.read()` yields a `height × width × 3`
8-bit pixel array; frames are immutable once captured. -/
structure Frame where
  height : Nat
  width : Nat
  data : List Nat
  deriving DecidableEq

/-- Images manipulated by the program, as the term algebra of the numpy /
OpenCV expressions the source builds: `np.zeros((r, c, ch), uint8)`,
`cv2.putText(img, text, (x, y), ...)`, and `frame_buffer.copy()` (a copy
of an immutable frame is the same pixel value). -/
inductive Img where
  | zeros (rows cols channels : Nat)
  | withText (base : Img) (text : String) (x y : Nat)
  | captured (f : Frame)
  deriving DecidableEq

/-- Row count of an image (`putText` draws in place, preserving shape). -/
def Img.rows : Img → Nat
  | .zeros r _ _ => r
  | .withText b _ _ _ => b.rows
  | .captured f => f.height

/-- Column count of an image. -/
def Img.cols : Img → Nat
  | .zeros _ c _ => c
  | .withText b _ _ _ => b.cols
  | .captured f => f.width

/-- The caption drawn on an image, if any. -/
def Img.caption : Img → Option String
  | .withText _ t _ _ => some t
  | _ => none

/-- An OpenCV `VideoCapture` handle as the program observes it:
`isOpened()`, and the property values readable via `camera.get`
(`CAP_PROP_FOURCC`, `CAP_PROP_FRAME_WIDTH`, `CAP_PROP_FRAME_HEIGHT`,
`CAP_PROP_FPS`, `CAP_PROP_BACKEND`). -/
structure CapHandle where
  isOpened : Bool
  fourcc : Nat
  width : Nat
  height : Nat
  fps : Nat
  backend : Nat
  deriving DecidableEq

/-- The external V4L2 driver, as an oracle deciding what each OpenCV
call returns: `cv2.VideoCapture(path, CAP_V4L2)`,
`cv2.VideoCapture(backendId, CAP_V4L2)` (the reopen path passes the
number obtained from `CAP_PROP_BACKEND`), and the best-effort
`camera.set` calls, which may change the handle's properties
arbitrarily (the driver may reject or silently ignore a request). -/
structure Driver where
  openPath : String → CapHandle
  openBackend : Nat → CapHandle
  setFourcc : CapHandle → Nat → CapHandle
  setWidth : CapHandle → Nat → CapHandle
  setHeight : CapHandle → Nat → CapHandle

/-- The program's shared mutable state: the globals `camera` and
`frame_buffer`, plus the capture thread's `consecutive_failures`
counter. -/
structure SysState where
  camera : Option CapHandle
  frameBuffer : Option Frame
  failures : Nat
  deriving DecidableEq

/-- Python truthiness of the `fourcc` argument (`if fourcc:`):
`None` and the empty string are falsy. -/
def truthyStr : Option String → Option String
  | none => none
  | some s => if s = "" then none else some s

/-- Python truthiness of the `width` / `height` arguments
(`if width and height:`): `None` and `0` are falsy. -/
def truthyNat : Option Nat → Bool
  | none => false
  | some n => n != 0

/-- `cv2.VideoWriter_fourcc(*fourcc)`: unpacks the string into the
4-ary function, packing the four character codes little-endian.
A string whose length is not 4 raises a `TypeError` (wrong arity),
modelled as `none`. -/
def fourccPack (s : String) : Option Nat :=
  match s.toList with
  | [a, b, c, d] =>
      some (a.toNat + b.toNat * 256 + c.toNat * 65536 + d.toNat * 16777216)
  | _ => none

/-- Readback string `"".join(chr((v >> 8 * i) & 0xFF) for i in range(4))`. -/
def fourccToStr (v : Nat) : String :=
  String.mk [Char.ofNat (v % 256), Char.ofNat (v / 256 % 256),
    Char.ofNat (v / 65536 % 256), Char.ofNat (v / 16777216 % 256)]

/-- The `if width and height:` block of `open_camera`: two `camera.set`
calls applied only when both values are truthy. -/
def applyDims (d : Driver) (cam : CapHandle) (width height : Option Nat) : CapHandle :=
  if truthyNat width && truthyNat height then
    d.setHeight (d.setWidth cam (width.getD 0)) (height.getD 0)
  else cam

/-- The actual negotiated properties `open_camera` reads back from the
handle for status reporting (logged after configuration). -/
structure OpenReport where
  fourccVal : Nat
  fourccStr : String
  width : Nat
  height : Nat
  deriving DecidableEq

/-- Readback of the actual negotiated format and resolution. -/
def mkReport (cam : CapHandle) : OpenReport :=
  ⟨cam.fourcc, fourccToStr cam.fourcc, cam.width, cam.height⟩

/-- `open_camera(device_path, fourcc, width, height)` from the source:
under `camera_lock`, release any open camera, rebind the global to a
fresh `VideoCapture(device_path, CAP_V4L2)`; return `False` if it is
not opened; otherwise apply fourcc (raising `TypeError` when the
string's length is not 4) and width/height best-effort, read back the
actual properties, and return `True`.  The `Except` error carries the
state at the raise point (the global was already rebound); the `Option
OpenReport` is the readback performed only on the success path. -/
def open_camera (d : Driver) (st : SysState) (devicePath : String)
    (fourcc : Option String) (width height : Option Nat) :
    Except (String × SysState) (Bool × SysState × Option OpenReport) :=
  let cam0 := d.openPath devicePath
  if cam0.isOpened = false then
    .ok (false, { st with camera := some cam0 }, none)
  else
    match truthyStr fourcc with
    | some s =>
      match fourccPack s with
      | none =>
          .error ("TypeError: VideoWriter_fourcc expects a 4 character string",
            { st with camera := some cam0 })
      | some v =>
          let cam2 := applyDims d (d.setFourcc cam0 v) width height
          .ok (true, { st with camera := some cam2 }, some (mkReport cam2))
    | none =>
      let cam2 := applyDims d cam0 width height
      .ok (true, { st with camera := some cam2 }, some (mkReport cam2))

/-- Body of an HTTP response as Flask produces it here: a plain string,
or raw JPEG bytes. -/
inductive RespBody where
  | text (s : String)
  | bytes (b : List Nat)
  deriving DecidableEq

/-- An HTTP response: status code, body, optional mimetype, and the
optional attachment filename from a `Content-Disposition` header. -/
structure HttpResponse where
  status : Nat
  body : RespBody
  mimetype : Option String
  attachment : Option String
  deriving DecidableEq

/-- The raw form fields of a `POST /connect` request; `none` means the
field is absent from the form. -/
structure FormData where
  device : Option String
  fourcc : Option String
  width : Option String
  height : Option String
  deriving DecidableEq

/-- Decimal digit in Python's sense — a character `int()` accepts.  On
the Latin-1 range (the fragment this model covers exactly) these are
precisely the ASCII digits `'0'`-`'9'`. -/
def pyCharDecimal (c : Char) : Bool :=
  c.isDigit

/-- Character accepted by Python `str.isdigit`.  On the Latin-1 range
these are the decimal digits plus the superscript digits `'¹'`
(U+00B9), `'²'` (U+00B2) and `'³'` (U+00B3), which carry the Unicode
digit property but no decimal value, so `str.isdigit` accepts them
while `int()` raises `ValueError`.  Code points above the Latin-1
range are outside the fragment modelled here; theorems that conclude a
request succeeds therefore carry `latin1Str` hypotheses on the fields
this classification feeds. -/
def pyCharIsDigit (c : Char) : Bool :=
  pyCharDecimal c || c.toNat == 0xB2 || c.toNat == 0xB3 || c.toNat == 0xB9

/-- String over the Latin-1 range, on which the digit classification
above is exact. -/
def latin1Str (s : String) : Bool :=
  s.toList.all fun c => decide (c.toNat < 256)

/-- Python `str.isdigit`: nonempty and every character a digit. -/
def pyIsDigit (s : String) : Bool :=
  s.length != 0 && s.toList.all pyCharIsDigit

/-- Python `int(s)` on a string that passed `str.isdigit`: the base-10
value when every character is a decimal digit, `ValueError` (modelled
as `none`) when some character — such as `'²'` — has the digit
property but no decimal value. -/
def pyInt (s : String) : Option Nat :=
  if s.toList.all pyCharDecimal then
    some (s.toList.foldl (fun a c => a * 10 + (c.toNat - 48)) 0)
  else none

/-- Lines 175-176 of the source, one field:
`int(w) if w.isdigit() else None`.  A field that fails `isdigit` is
ignored (`None`); a field that passes `isdigit` but is rejected by
`int()` raises `ValueError`, which escapes the handler. -/
def coerceDim (s : String) : Except String (Option Nat) :=
  if pyIsDigit s then
    match pyInt s with
    | some n => .ok (some n)
    | none => .error "ValueError: invalid literal for int() with base 10"
  else .ok none

/-- The values `connect_camera` passes to `open_camera` after coercion. -/
structure Coerced where
  device : String
  fourcc : Option String
  width : Option Nat
  height : Option Nat
  deriving DecidableEq

/-- Lines 169-177 of the source: `request.form.get('device',
'/dev/video0')`, `request.form.get(..., '')` for the rest, then the
width coercion (line 175) and the height coercion (line 176) — either
of which may raise `ValueError` — and `fourcc if fourcc else None`. -/
def coerceForm (form : FormData) : Except String Coerced :=
  let device := form.device.getD "/dev/video0"
  let fourcc0 := form.fourcc.getD ""
  let width0 := form.width.getD ""
  let height0 := form.height.getD ""
  match coerceDim width0 with
  | .error e => .error e
  | .ok w =>
    match coerceDim height0 with
    | .error e => .error e
    | .ok h =>
        .ok ⟨device, if fourcc0 = "" then none else some fourcc0, w, h⟩

/-- The `POST /connect` handler: coerce the form fields (which may
raise `ValueError` before the device is touched — the state is then
still the caller's), call `open_camera`, and answer `200 "Camera
connected successfully"` or `400 "Failed to connect to camera"`.  An
uncaught Python exception propagates as `.error`, carrying the state
at the raise point. -/
def connect_camera (d : Driver) (st : SysState) (form : FormData) :
    Except (String × SysState) (HttpResponse × SysState) :=
  match coerceForm form with
  | .error msg => .error (msg, st)
  | .ok c =>
    match open_camera d st c.device c.fourcc c.width c.height with
    | .error e => .error e
    | .ok (true, st1, _) =>
        .ok (⟨200, .text "Camera connected successfully", none, none⟩, st1)
    | .ok (false, st1, _) =>
        .ok (⟨400, .text "Failed to connect to camera", none, none⟩, st1)

/-- Camera properties reported by the `GET /` status page. -/
structure CamInfo where
  width : Nat
  height : Nat
  fps : Nat
  format : Nat
  deriving DecidableEq

/-- The status part of the `GET /` handler: "Not connected" with no
info when `camera` is `None` or not opened, else "Connected" with the
properties read from the handle. -/
def index_status (st : SysState) : String × Option CamInfo :=
  match st.camera with
  | none => ("Not connected", none)
  | some cap =>
    if cap.isOpened then
      ("Connected", some ⟨cap.width, cap.height, cap.fps, cap.fourcc⟩)
    else ("Not connected", none)

/-- Outcome of one `camera.read()` call, decided by the external device. -/
inductive ReadOutcome where
  | success (f : Frame)
  | failure
  deriving DecidableEq

/-- What one iteration of the capture loop did (for observation). -/
inductive Action where
  | idle
  | published (f : Frame)
  | failedRead (n : Nat)
  | reopened (backend : Nat) (nowOpen : Bool)
  deriving DecidableEq

/-- One iteration of `camera_capture_thread`'s `while True` body.  If no
camera is open, sleep and continue (the read outcome is not consumed).
Otherwise `camera.read()`: on success reset `consecutive_failures` and
publish the frame to `frame_buffer` (under `buffer_lock`); on failure
increment the counter, and when it reaches 5 release the camera and
reopen `cv2.VideoCapture(camera.get(CAP_PROP_BACKEND), CAP_V4L2)`,
resetting the counter. -/
def captureStep (d : Driver) (st : SysState) (r : ReadOutcome) : SysState × Action :=
  match st.camera with
  | none => (st, .idle)
  | some cap =>
    if cap.isOpened = false then (st, .idle)
    else
      match r with
      | .success f => ({ st with failures := 0, frameBuffer := some f }, .published f)
      | .failure =>
        let n := st.failures + 1
        if 5 ≤ n then
          let cam2 := d.openBackend cap.backend
          ({ st with camera := some cam2, failures := 0 },
            .reopened cap.backend cam2.isOpened)
        else
          ({ st with failures := n }, .failedRead n)

/-- Run the capture loop over a list of read outcomes, collecting the
actions taken. -/
def runCapture (d : Driver) : SysState → List ReadOutcome → SysState × List Action
  | st, [] => (st, [])
  | st, r :: rs =>
    let p := captureStep d st r
    let q := runCapture d p.1 rs
    (q.1, p.2 :: q.2)

/-- Number of release-and-reopen attempts in a list of actions. -/
def reopenCount (acts : List Action) : Nat :=
  acts.countP fun a => match a with | .reopened _ _ => true | _ => false

/-- The image `generate_frames` chooses on one tick: the buffered frame
if there is one, else the synthesized placeholder
`cv2.putText(np.zeros((480, 640, 3), uint8), "Waiting for camera...",
(50, 240), ...)`. -/
def placeholderImg : Img :=
  .withText (.zeros 480 640 3) "Waiting for camera..." 50 240

/-- Lines 115-122 of the source: copy the buffered frame under
`buffer_lock`, or synthesize the placeholder when the buffer is empty. -/
def chooseImg : Option Frame → Img
  | none => placeholderImg
  | some f => .captured f

/-- One multipart chunk of the MJPEG stream:
`b'--frame\r\nContent-Type: image/jpeg\r\n\r\n' + jpeg + b'\r\n'`. -/
structure Chunk where
  head : String
  payload : List Nat
  tail : String
  deriving DecidableEq

/-- Frame a JPEG payload with the multipart boundary and content type. -/
def mkChunk (jpeg : List Nat) : Chunk :=
  ⟨"--frame\r\nContent-Type: image/jpeg\r\n\r\n", jpeg, "\r\n"⟩

/-- One tick of `generate_frames`, with the JPEG encoder
(`cv2.imencode('.jpg', img)`) as an oracle.  When encoding fails
(`not ret`) the iteration `continue`s without yielding, so the tick
emits no chunk; otherwise it yields one framed chunk. -/
def genTick (enc : Img → Option (List Nat)) (buf : Option Frame) : Option Chunk :=
  match enc (chooseImg buf) with
  | none => none
  | some j => some (mkChunk j)

/-- The chunks `generate_frames` emits over a sequence of ticks, given
the buffer contents observed at each tick. -/
def genStream (enc : Img → Option (List Nat)) : List (Option Frame) → List Chunk
  | [] => []
  | b :: bs =>
    match genTick enc b with
    | none => genStream enc bs
    | some c => c :: genStream enc bs

/-- A wall-clock timestamp as `time.strftime` consumes it. -/
structure Timestamp where
  year : Nat
  month : Nat
  day : Nat
  hour : Nat
  minute : Nat
  second : Nat
  deriving DecidableEq

/-- Zero-pad a number to a field width, as strftime does. -/
def padZeros (w n : Nat) : String :=
  let s := toString n
  String.mk (List.replicate (w - s.length) '0') ++ s

/-- `time.strftime("%Y%m%d-%H%M%S")` at a given timestamp. -/
def strftimeYmdHMS (t : Timestamp) : String :=
  padZeros 4 t.year ++ padZeros 2 t.month ++ padZeros 2 t.day ++ "-" ++
    padZeros 2 t.hour ++ padZeros 2 t.minute ++ padZeros 2 t.second

/-- The `GET /snapshot` handler: `400 "No frame available"` when the
buffer is empty, `500 "Failed to encode image"` when `cv2.imencode`
fails on the copied frame, else a `200` JPEG response with
`Content-Disposition: attachment;filename=snapshot_<timestamp>.jpg`. -/
def snapshot (enc : Img → Option (List Nat)) (buf : Option Frame)
    (ts : Timestamp) : HttpResponse :=
  match buf with
  | none => ⟨400, .text "No frame available", none, none⟩
  | some f =>
    match enc (Img.captured f) with
    | none => ⟨500, .text "Failed to encode image", none, none⟩
    | some j =>
        ⟨200, .bytes j, some "image/jpeg",
          some ("snapshot_" ++ strftimeYmdHMS ts ++ ".jpg")⟩

/-- An atomic operation on the frame buffer.  In the source every
access to `frame_buffer` — the publish at lines 94-95, the stream read
at lines 115-122, the snapshot read at lines 190-194 — is performed
while holding `buffer_lock`, so publishes and peeks interleave as
atomic steps. -/
inductive BufOp where
  | publish (f : Frame)
  | peek
  deriving DecidableEq

/-- Run a sequence of buffer operations: each `publish` replaces the
held frame, each `peek` returns (a copy of) the current contents.
Returns the final buffer and the list of peek results in order. -/
def runBuf : Option Frame → List BufOp → Option Frame × List (Option Frame)
  | b, [] => (b, [])
  | _, .publish f :: rest => runBuf (some f) rest
  | b, .peek :: rest =>
    let p := runBuf b rest
    (p.1, b :: p.2)

/-- An operation of the whole program touching the shared state: one
capture-loop iteration, a `POST /connect`, a `GET /snapshot`, one
stream tick, or a `GET /` status query.  The last three only read the
state. -/
inductive SysOp where
  | capture (r : ReadOutcome)
  | connect (form : FormData)
  | snapshotReq (ts : Timestamp)
  | streamTick
  | indexReq
  deriving DecidableEq

/-- State transition of one system operation.  A `connect` that raises
leaves the state it had mutated up to the raise point (the `with
camera_lock:` block releases the lock on exception and the request
dies with a 500, the globals keeping their current values). -/
def sysStep (d : Driver) (st : SysState) : SysOp → SysState
  | .capture r => (captureStep d st r).1
  | .connect form =>
    match connect_camera d st form with
    | .ok q => q.2
    | .error e => e.2
  | .snapshotReq _ => st
  | .streamTick => st
  | .indexReq => st

/-- Run a sequence of system operations. -/
def runSys (d : Driver) : SysState → List SysOp → SysState
  | st, [] => st
  | st, op :: ops => runSys d (sysStep d st op) ops

/-! Concrete fixtures used by witnesses and counterexamples. -/

/-- A handle that reports open, 640×480 at 30 fps, backend id 200. -/
def capOpen : CapHandle := ⟨true, 0, 640, 480, 30, 200⟩

/-- A handle that reports not opened (a failed `VideoCapture`). -/
def capClosed : CapHandle := ⟨false, 0, 0, 0, 0, 0⟩

/-- A driver whose path opens succeed, whose backend reopens fail, and
whose property setters apply the request verbatim. -/
def dTest : Driver :=
  ⟨fun _ => capOpen, fun _ => capClosed,
    fun c v => { c with fourcc := v },
    fun c w => { c with width := w },
    fun c h => { c with height := h }⟩

/-- A driver for which every open fails. -/
def dFail : Driver :=
  ⟨fun _ => capClosed, fun _ => capClosed, fun c _ => c, fun c _ => c, fun c _ => c⟩

/-- A tiny concrete frame. -/
def frame0 : Frame := ⟨480, 640, [7, 8, 9]⟩

/-- A second concrete frame. -/
def frame1 : Frame := ⟨480, 640, [1, 2, 3]⟩

/-- An encoder that always succeeds, returning a fixed payload. -/
def encOk : Img → Option (List Nat) := fun _ => some [255, 216, 255, 217]

/-- An encoder that always fails. -/
def encFail : Img → Option (List Nat) := fun _ => none

/-- A concrete timestamp, 2026-10-12 09:05:03. -/
def ts0 : Timestamp := ⟨2026, 10, 12, 9, 5, 3⟩

/-! Theorems.  Claim identifiers refer to the specification's claim
list; helper lemmas are shared. -/

/-- C2: the `/snapshot` handler returns body "No frame available" with
status 400 when no frame has ever been published; status 500 when a
frame is present but JPEG encoding fails; otherwise status 200 with the
JPEG payload as an attachment named `snapshot_<YYYYMMDD-HHMMSS>.jpg`
derived from the current timestamp. -/
theorem snapshot_response_spec (enc : Img → Option (List Nat))
    (buf : Option Frame) (ts : Timestamp) :
    (buf = none →
      snapshot enc buf ts = ⟨400, .text "No frame available", none, none⟩) ∧
    (∀ f, buf = some f → enc (Img.captured f) = none →
      snapshot enc buf ts = ⟨500, .text "Failed to encode image", none, none⟩) ∧
    (∀ f j, buf = some f → enc (Img.captured f) = some j →
      snapshot enc buf ts =
        ⟨200, .bytes j, some "image/jpeg",
          some ("snapshot_" ++ strftimeYmdHMS ts ++ ".jpg")⟩) := by
  refine ⟨?_, ?_, ?_⟩
  · rintro rfl; rfl
  · rintro f rfl h; simp [snapshot, h]
  · rintro f j rfl h; simp [snapshot, h]

/-- Witness for C2: a concrete frame, always-succeeding encoder and a
fixed timestamp produce the 200 attachment response. -/
theorem snapshot_response_spec_witness :
    snapshot encOk (some frame0) ts0 =
      ⟨200, .bytes [255, 216, 255, 217], some "image/jpeg",
        some "snapshot_20261012-090503.jpg"⟩ :=
  (snapshot_response_spec encOk (some frame0) ts0).2.2 frame0 [255, 216, 255, 217] rfl rfl

/-- C3: on a tick where the frame buffer is empty, `generate_frames`
synthesizes the fixed 480×640 placeholder (solid zero background with
the caption "Waiting for camera...") and, whenever the encoder succeeds
on it, emits it as the tick's chunk — so the stream emits a chunk even
before any frame has been captured. -/
theorem stream_placeholder_on_empty (enc : Img → Option (List Nat)) :
    chooseImg none = placeholderImg ∧
    placeholderImg.rows = 480 ∧ placeholderImg.cols = 640 ∧
    placeholderImg.caption = some "Waiting for camera..." ∧
    (∀ j, enc placeholderImg = some j → genTick enc none = some (mkChunk j)) ∧
    (∀ j bufs, enc placeholderImg = some j →
      genStream enc (none :: bufs) = mkChunk j :: genStream enc bufs) := by
  refine ⟨rfl, rfl, rfl, rfl, ?_, ?_⟩
  · intro j h; simp [genTick, chooseImg, h]
  · intro j bufs h; simp [genStream, genTick, chooseImg, h]

/-- Witness for C3: with an always-succeeding encoder, the first tick of
a stream started before any capture emits the placeholder chunk. -/
theorem stream_placeholder_on_empty_witness :
    genStream encOk [none] = [mkChunk [255, 216, 255, 217]] :=
  (stream_placeholder_on_empty encOk).2.2.2.2.2 [255, 216, 255, 217] [] rfl

/-- C5: when JPEG encoding of the chosen image fails on a tick, that
tick emits no chunk and the stream continues with the next tick — an
encoding failure never terminates the sequence. -/
theorem stream_encode_failure_skips_tick (enc : Img → Option (List Nat))
    (b : Option Frame) (bufs : List (Option Frame))
    (h : enc (chooseImg b) = none) :
    genTick enc b = none ∧ genStream enc (b :: bufs) = genStream enc bufs := by
  constructor
  · simp [genTick, h]
  · simp [genStream, genTick, h]

/-- Witness for C5: an always-failing encoder skips the first tick and
the stream goes on with the rest. -/
theorem stream_encode_failure_skips_tick_witness :
    genTick encFail (some frame0) = none ∧
    genStream encFail (some frame0 :: [some frame1]) = genStream encFail [some frame1] :=
  stream_encode_failure_skips_tick encFail (some frame0) [some frame1] rfl

/-- Every peek over a run of buffer operations returns either the
initial buffer contents or a frame published somewhere in the run. -/
theorem runBuf_peeks_sound (ops : List BufOp) :
    ∀ b0 r, r ∈ (runBuf b0 ops).2 →
      r = b0 ∨ ∃ f, BufOp.publish f ∈ ops ∧ r = some f := by
  induction ops with
  | nil => intro b0 r h; simp [runBuf] at h
  | cons op rest ih =>
    cases op with
    | publish f =>
      intro b0 r h
      simp only [runBuf] at h
      rcases ih (some f) r h with h1 | ⟨g, hg, hr⟩
      · exact Or.inr ⟨f, by simp, h1⟩
      · exact Or.inr ⟨g, by simp [hg], hr⟩
    | peek =>
      intro b0 r h
      simp only [runBuf, List.mem_cons] at h
      rcases h with rfl | h
      · exact Or.inl rfl
      · rcases ih b0 r h with h1 | ⟨g, hg, hr⟩
        · exact Or.inl h1
        · exact Or.inr ⟨g, by simp [hg], hr⟩

/-- C9: for every interleaved sequence of publishes (capture loop) and
peeks (stream encoders, snapshot exporter) — each atomic, because every
`frame_buffer` access in the source holds `buffer_lock` — a peek
returns either "empty" or a frame that was published in full; a torn or
partially written frame is never observed. -/
theorem peek_never_torn (ops : List BufOp) :
    ∀ r ∈ (runBuf none ops).2,
      r = none ∨ ∃ f, BufOp.publish f ∈ ops ∧ r = some f :=
  fun r hr => runBuf_peeks_sound ops none r hr

/-- Witness for C9: in the run publish-then-peek, the peek observes the
published frame in full. -/
theorem peek_never_torn_witness :
    some frame0 = none ∨
      ∃ f, BufOp.publish f ∈ [BufOp.publish frame0, BufOp.peek] ∧ some frame0 = some f :=
  peek_never_torn [BufOp.publish frame0, BufOp.peek] (some frame0) (by decide)

/-- On every outcome, `open_camera` leaves `frame_buffer` untouched: it
only rebinds the `camera` global. -/
theorem open_camera_preserves_buffer (d : Driver) (st : SysState) (p : String)
    (f : Option String) (w h : Option Nat) :
    (∀ e, open_camera d st p f w h = .error e → e.2.frameBuffer = st.frameBuffer) ∧
    (∀ b st1 rep, open_camera d st p f w h = .ok (b, st1, rep) →
      st1.frameBuffer = st.frameBuffer) := by
  constructor
  · intro e he
    unfold open_camera at he
    cases hop : (d.openPath p).isOpened <;> simp only [hop] at he
    · simp at he
    · rcases hts : truthyStr f with _ | s <;> simp only [hts] at he
      · simp at he
      · rcases hfp : fourccPack s with _ | v <;> simp only [hfp] at he
        · simp at he; rw [← he]
        · simp at he
  · intro b st1 rep hok
    unfold open_camera at hok
    cases hop : (d.openPath p).isOpened <;> simp only [hop] at hok
    · simp at hok; rw [← hok.2.1]
    · rcases hts : truthyStr f with _ | s <;> simp only [hts] at hok
      · simp at hok; rw [← hok.2.1]
      · rcases hfp : fourccPack s with _ | v <;> simp only [hfp] at hok
        · simp at hok
        · simp at hok; rw [← hok.2.1]

/-- One capture iteration either keeps the buffer or fills it with the
frame just read; it never empties it. -/
theorem captureStep_buffer (d : Driver) (st : SysState) (r : ReadOutcome) :
    (captureStep d st r).1.frameBuffer = st.frameBuffer ∨
    ∃ f, (captureStep d st r).1.frameBuffer = some f := by
  unfold captureStep
  rcases st.camera with _ | cap
  · exact Or.inl rfl
  · dsimp only
    split
    · exact Or.inl rfl
    · cases r with
      | success f => exact Or.inr ⟨f, rfl⟩
      | failure =>
        dsimp only
        split
        · exact Or.inl rfl
        · exact Or.inl rfl

/-- No system operation empties a nonempty frame buffer. -/
theorem sysStep_preserves_buffer (d : Driver) (st : SysState) (op : SysOp)
    (h : st.frameBuffer ≠ none) : (sysStep d st op).frameBuffer ≠ none := by
  cases op with
  | capture r =>
    rcases captureStep_buffer d st r with hb | ⟨f, hb⟩
    · simpa [sysStep, hb] using h
    · simp [sysStep, hb]
  | connect form =>
    simp only [sysStep, connect_camera]
    rcases hcf : coerceForm form with msg | co
    · simpa using h
    · have hpres := open_camera_preserves_buffer d st co.device co.fourcc co.width co.height
      rcases hop : open_camera d st co.device co.fourcc co.width co.height with e | ⟨b, st1, rep⟩
      · simpa [hop, hpres.1 e hop] using h
      · cases b
        · simpa [hop, hpres.2 false st1 rep hop] using h
        · simpa [hop, hpres.2 true st1 rep hop] using h
  | snapshotReq ts => simpa [sysStep] using h
  | streamTick => simpa [sysStep] using h
  | indexReq => simpa [sysStep] using h

/-- A whole run of system operations preserves a nonempty buffer. -/
theorem runSys_preserves_buffer (d : Driver) (ops : List SysOp) :
    ∀ st : SysState, st.frameBuffer ≠ none → (runSys d st ops).frameBuffer ≠ none := by
  induction ops with
  | nil => intro st h; exact h
  | cons op rest ih =>
    intro st h
    exact ih (sysStep d st op) (sysStep_preserves_buffer d st op h)

/-- C10: once any frame has been published, no operation of the program
ever resets the frame buffer to empty — after the first successful
capture, `/snapshot` can no longer answer 400 "No frame available" and
every stream tick chooses a captured frame rather than the placeholder,
even across device closes, read failures, reopens and reconnects. -/
theorem frame_buffer_never_cleared (d : Driver) (st : SysState)
    (ops : List SysOp) (h : st.frameBuffer ≠ none) :
    (runSys d st ops).frameBuffer ≠ none ∧
    (∀ enc ts, (snapshot enc (runSys d st ops).frameBuffer ts).status ≠ 400) ∧
    (∃ f, chooseImg (runSys d st ops).frameBuffer = Img.captured f) := by
  have hb := runSys_preserves_buffer d ops st h
  refine ⟨hb, ?_, ?_⟩
  · intro enc ts
    rcases hf : (runSys d st ops).frameBuffer with _ | f
    · exact absurd hf hb
    · rcases he : enc (Img.captured f) with _ | j <;> simp [snapshot, hf, he]
  · rcases hf : (runSys d st ops).frameBuffer with _ | f
    · exact absurd hf hb
    · exact ⟨f, by simp [chooseImg, hf]⟩

/-- Witness for C10: starting with a published frame, a bad reconnect, a
read failure and a snapshot request leave the buffer full, the snapshot
non-400, and the stream on a captured frame. -/
theorem frame_buffer_never_cleared_witness :
    (runSys dFail ⟨some capOpen, some frame0, 0⟩
      [.connect ⟨some "/dev/bad", none, none, none⟩, .capture .failure,
        .snapshotReq ts0]).frameBuffer ≠ none ∧
    (∀ enc ts,
      (snapshot enc (runSys dFail ⟨some capOpen, some frame0, 0⟩
        [.connect ⟨some "/dev/bad", none, none, none⟩, .capture .failure,
          .snapshotReq ts0]).frameBuffer ts).status ≠ 400) ∧
    (∃ f, chooseImg (runSys dFail ⟨some capOpen, some frame0, 0⟩
      [.connect ⟨some "/dev/bad", none, none, none⟩, .capture .failure,
        .snapshotReq ts0]).frameBuffer = Img.captured f) :=
  frame_buffer_never_cleared dFail ⟨some capOpen, some frame0, 0⟩
    [.connect ⟨some "/dev/bad", none, none, none⟩, .capture .failure,
      .snapshotReq ts0] (by decide)

/-- Counterexample to C4 as stated: a `POST /connect` naming a device
that cannot be opened does return 400, but the previously open device's
state is no longer queryable — `open_camera` released it and rebound the
global to the failed handle, so the status query flips from "Connected"
(with its negotiated properties) to "Not connected" with no info. -/
theorem connect_fail_status_counterexample :
    connect_camera dFail ⟨some capOpen, none, 0⟩ ⟨some "/dev/bad", none, none, none⟩ =
      .ok (⟨400, .text "Failed to connect to camera", none, none⟩,
        ⟨some capClosed, none, 0⟩) ∧
    index_status ⟨some capOpen, none, 0⟩ = ("Connected", some ⟨640, 480, 30, 0⟩) ∧
    index_status ⟨some capClosed, none, 0⟩ = ("Not connected", none) ∧
    index_status (⟨some capClosed, none, 0⟩ : SysState) ≠
      index_status ⟨some capOpen, none, 0⟩ :=
  ⟨rfl, rfl, rfl, by decide⟩

/-- C4 amended: for a `POST /connect` whose Latin-1 width and height
fields coerce without raising (they are absent, fail `isdigit`, or are
decimal) and whose device cannot be opened, the handler returns 400
and leaves the frame buffer intact, but the previously open device has
already been released and the global handle rebound to the failed one,
so a subsequent status query reports "Not connected" — the prior
device's last-known-good state is discarded (the resulting state is
consistent, not partially corrupted).  A width or height that passes
`isdigit` but is rejected by `int()` instead raises before the open,
per `connect_field_coercion`. -/
theorem connect_fail_returns_400_and_releases_prior (d : Driver) (st : SysState)
    (form : FormData) (co : Coerced)
    (_hlw : latin1Str (form.width.getD "") = true)
    (_hlh : latin1Str (form.height.getD "") = true)
    (hc : coerceForm form = .ok co)
    (h : (d.openPath co.device).isOpened = false) :
    connect_camera d st form =
      .ok (⟨400, .text "Failed to connect to camera", none, none⟩,
        { st with camera := some (d.openPath co.device) }) ∧
    ({ st with camera := some (d.openPath co.device) } : SysState).frameBuffer
      = st.frameBuffer ∧
    index_status { st with camera := some (d.openPath co.device) } =
      ("Not connected", none) := by
  refine ⟨?_, rfl, ?_⟩
  · simp [connect_camera, hc, open_camera, h]
  · simp [index_status, h]

/-- Witness for C4's amended claim: with an always-failing driver, a
connect from a Connected state answers 400, keeps the buffer, and the
status afterwards is "Not connected". -/
theorem connect_fail_returns_400_and_releases_prior_witness :
    connect_camera dFail ⟨some capOpen, some frame0, 3⟩
      ⟨some "/dev/bad", some "MJPG", some "640", some "480"⟩ =
      .ok (⟨400, .text "Failed to connect to camera", none, none⟩,
        ⟨some capClosed, some frame0, 3⟩) ∧
    (⟨some capClosed, some frame0, 3⟩ : SysState).frameBuffer = some frame0 ∧
    index_status ⟨some capClosed, some frame0, 3⟩ = ("Not connected", none) :=
  connect_fail_returns_400_and_releases_prior dFail ⟨some capOpen, some frame0, 3⟩
    ⟨some "/dev/bad", some "MJPG", some "640", some "480"⟩
    ⟨"/dev/bad", some "MJPG", some 640, some 480⟩ rfl rfl rfl rfl

/-- C7: `open_camera` returns failure when the driver cannot open the
device (the requested settings are then never applied); on a successful
open it applies the requested pixel format when one is given (raising
no further checks — best-effort, the driver decides the effect), applies
the requested resolution when both width and height are given, and
reads back the actual negotiated format and resolution from the final
handle for status reporting, returning success. -/
theorem open_camera_applies_settings_and_reports (d : Driver) (st : SysState)
    (p : String) (f : Option String) (w h : Option Nat) :
    ((d.openPath p).isOpened = false →
      open_camera d st p f w h =
        .ok (false, { st with camera := some (d.openPath p) }, none)) ∧
    ((d.openPath p).isOpened = true → ∀ s v, truthyStr f = some s →
      fourccPack s = some v →
      open_camera d st p f w h =
        .ok (true,
          { st with camera := some (applyDims d (d.setFourcc (d.openPath p) v) w h) },
          some (mkReport (applyDims d (d.setFourcc (d.openPath p) v) w h)))) ∧
    ((d.openPath p).isOpened = true → truthyStr f = none →
      open_camera d st p f w h =
        .ok (true, { st with camera := some (applyDims d (d.openPath p) w h) },
          some (mkReport (applyDims d (d.openPath p) w h)))) ∧
    (∀ cam, truthyNat w = true → truthyNat h = true →
      applyDims d cam w h = d.setHeight (d.setWidth cam (w.getD 0)) (h.getD 0)) ∧
    (∀ cam, mkReport cam = ⟨cam.fourcc, fourccToStr cam.fourcc, cam.width, cam.height⟩) := by
  refine ⟨?_, ?_, ?_, ?_, fun cam => rfl⟩
  · intro h1; simp [open_camera, h1]
  · intro h1 s v hs hv; simp [open_camera, h1, hs, hv]
  · intro h1 hn; simp [open_camera, h1, hn]
  · intro cam hw hh; simp [applyDims, hw, hh]

/-- Witness for C7: the test driver opens, applies MJPG and 640×480,
and the report carries the negotiated values read back. -/
theorem open_camera_applies_settings_and_reports_witness :
    open_camera dTest ⟨none, none, 0⟩ "/dev/video0" (some "MJPG") (some 640) (some 480) =
      .ok (true, ⟨some ⟨true, 1196444237, 640, 480, 30, 200⟩, none, 0⟩,
        some ⟨1196444237, "MJPG", 640, 480⟩) :=
  (open_camera_applies_settings_and_reports dTest ⟨none, none, 0⟩ "/dev/video0"
    (some "MJPG") (some 640) (some 480)).2.1 rfl "MJPG" 1196444237 rfl rfl

/-- Counterexample to C6 as stated, at two concrete malformed fields.
The form field `fourcc = "ABC"` — nonempty but not 4 characters —
makes the request hard-fail: once the device opens,
`cv2.VideoWriter_fourcc(*'ABC')` raises a `TypeError` (wrong arity),
which escapes the handler as an HTTP 500.  And the form field
`width = "²"` passes `str.isdigit` (the superscript two has the
Unicode digit property) but `int("²")` raises `ValueError` at line
175, before the device is even touched — also an HTTP 500. -/
theorem connect_bad_fourcc_counterexample :
    connect_camera dTest ⟨none, none, 0⟩ ⟨none, some "ABC", some "12a", none⟩ =
      .error ("TypeError: VideoWriter_fourcc expects a 4 character string",
        ⟨some capOpen, none, 0⟩) ∧
    pyIsDigit "²" = true ∧
    connect_camera dTest ⟨none, none, 0⟩ ⟨none, none, some "²", none⟩ =
      .error ("ValueError: invalid literal for int() with base 10",
        ⟨none, none, 0⟩) :=
  ⟨rfl, rfl, rfl⟩

/-- A 4-character string always packs to a fourcc code. -/
theorem fourccPack_of_length_four (s : String) (h : s.length = 4) :
    ∃ v, fourccPack s = some v := by
  have h4 : s.toList.length = 4 := h
  rcases hl : s.toList with _ | ⟨a, _ | ⟨b, _ | ⟨c, _ | ⟨d, _ | ⟨e, tl⟩⟩⟩⟩⟩ <;>
    rw [hl] at h4 <;> simp at h4
  refine ⟨a.toNat + b.toNat * 256 + c.toNat * 65536 + d.toNat * 16777216, ?_⟩
  unfold fourccPack
  rw [hl]

/-- The fourcc value a successful coercion produces is already truthy:
it is `None` or a nonempty string. -/
theorem coerceForm_fourcc_truthy (form : FormData) (co : Coerced)
    (hc : coerceForm form = .ok co) : truthyStr co.fourcc = co.fourcc := by
  simp only [coerceForm] at hc
  rcases hw : coerceDim (form.width.getD "") with e | w
  · rw [hw] at hc; cases hc
  · rw [hw] at hc
    rcases hh : coerceDim (form.height.getD "") with e | hgt
    · rw [hh] at hc; cases hc
    · rw [hh] at hc
      cases hc
      by_cases hf : form.fourcc.getD "" = "" <;> simp [truthyStr, hf]

/-- C6 amended: `POST /connect` coerces its form fields as the claim
says — missing device defaults to "/dev/video0", a width or height that
fails `str.isdigit` is ignored and one that is all decimal digits is
converted, an empty fourcc is treated as absent — but not every
malformed field is harmless: a width or height that passes
`str.isdigit` with a non-decimal digit character (such as "²") raises
`ValueError` at the coercion itself, before the device is touched, and
a nonempty fourcc whose length is not 4 raises a `TypeError` once the
device opens.  The request is guaranteed not to hard-fail when the
Latin-1 width and height fields coerce without raising and the coerced
fourcc is absent or 4 characters long. -/
theorem connect_field_coercion (d : Driver) (st : SysState) (form : FormData) :
    (∀ s, pyIsDigit s = false → coerceDim s = .ok none) ∧
    (∀ s n, pyIsDigit s = true → pyInt s = some n → coerceDim s = .ok (some n)) ∧
    (∀ s, pyIsDigit s = true → pyInt s = none →
      coerceDim s = .error "ValueError: invalid literal for int() with base 10") ∧
    (∀ co, coerceForm form = .ok co →
      co.device = form.device.getD "/dev/video0" ∧
      coerceDim (form.width.getD "") = .ok co.width ∧
      coerceDim (form.height.getD "") = .ok co.height ∧
      (form.fourcc.getD "" = "" → co.fourcc = none)) ∧
    (∀ e, coerceDim (form.width.getD "") = .error e →
      connect_camera d st form = .error (e, st)) ∧
    (∀ co, coerceForm form = .ok co →
      (∀ s, co.fourcc = some s → s.length = 4) →
      latin1Str (form.width.getD "") = true →
      latin1Str (form.height.getD "") = true →
      ∃ q, connect_camera d st form = .ok q) := by
  refine ⟨?_, ?_, ?_, ?_, ?_, ?_⟩
  · intro s hs; simp [coerceDim, hs]
  · intro s n hs hn; simp [coerceDim, hs, hn]
  · intro s hs hn; simp [coerceDim, hs, hn]
  · intro co hc
    simp only [coerceForm] at hc
    rcases hw : coerceDim (form.width.getD "") with e | w
    · rw [hw] at hc; cases hc
    · rw [hw] at hc
      rcases hh : coerceDim (form.height.getD "") with e | hgt
      · rw [hh] at hc; cases hc
      · rw [hh] at hc
        cases hc
        exact ⟨rfl, rfl, rfl, fun hf => by simp [hf]⟩
  · intro e he
    simp only [connect_camera, coerceForm, he]
  · intro co hc hlen hl1 hl2
    simp only [connect_camera, hc]
    rcases hop : open_camera d st co.device co.fourcc co.width co.height
        with e | ⟨b, st1, rep⟩
    · exfalso
      unfold open_camera at hop
      cases ho : (d.openPath co.device).isOpened <;> simp only [ho] at hop
      · simp at hop
      · rcases hts : truthyStr co.fourcc with _ | s <;> simp only [hts] at hop
        · simp at hop
        · have hs : co.fourcc = some s := by
            rw [← coerceForm_fourcc_truthy form co hc, hts]
          obtain ⟨v, hv⟩ := fourccPack_of_length_four s (hlen s hs)
          simp [hv] at hop
    · cases b
      · exact ⟨(⟨400, .text "Failed to connect to camera", none, none⟩, st1), rfl⟩
      · exact ⟨(⟨200, .text "Camera connected successfully", none, none⟩, st1), rfl⟩

/-- Witness for C6's amended claim: a non-digits width is ignored, a
decimal height converts, the superscript two raises `ValueError`, and
with a valid 4-character fourcc the request completes without raising. -/
theorem connect_field_coercion_witness :
    coerceDim "12a" = .ok none ∧
    coerceDim "480" = .ok (some 480) ∧
    coerceDim "²" = .error "ValueError: invalid literal for int() with base 10" ∧
    ∃ q, connect_camera dTest ⟨none, none, 0⟩
      ⟨none, some "MJPG", some "12a", some "480"⟩ = .ok q := by
  refine ⟨(connect_field_coercion dTest ⟨none, none, 0⟩
      ⟨none, some "MJPG", some "12a", some "480"⟩).1 "12a" rfl,
    (connect_field_coercion dTest ⟨none, none, 0⟩
      ⟨none, some "MJPG", some "12a", some "480"⟩).2.1 "480" 480 rfl rfl,
    (connect_field_coercion dTest ⟨none, none, 0⟩
      ⟨none, some "MJPG", some "12a", some "480"⟩).2.2.1 "²" rfl rfl,
    (connect_field_coercion dTest ⟨none, none, 0⟩
      ⟨none, some "MJPG", some "12a", some "480"⟩).2.2.2.2.2
      ⟨"/dev/video0", some "MJPG", none, some 480⟩ rfl ?_ rfl rfl⟩
  intro s hs
  cases hs
  rfl

/-- Running `n` consecutive failed reads from counter value `c`, with
the camera open and `c + n < 5`, just counts: no reopen happens and the
counter ends at `c + n`. -/
theorem runCapture_failures_below_threshold (d : Driver) (cap : CapHandle)
    (buf : Option Frame) (ho : cap.isOpened = true) :
    ∀ n c, c + n < 5 →
      (runCapture d ⟨some cap, buf, c⟩ (List.replicate n .failure)).1 =
        ⟨some cap, buf, c + n⟩ ∧
      reopenCount (runCapture d ⟨some cap, buf, c⟩ (List.replicate n .failure)).2 = 0 := by
  intro n
  induction n with
  | zero => intro c hc; exact ⟨rfl, rfl⟩
  | succ k ih =>
    intro c hc
    have h5 : ¬ (5 ≤ c + 1) := by omega
    have hstep : captureStep d ⟨some cap, buf, c⟩ .failure =
        (⟨some cap, buf, c + 1⟩, .failedRead (c + 1)) := by
      simp [captureStep, ho, h5]
    have ihc := ih (c + 1) (by omega)
    have harith : c + 1 + k = c + (k + 1) := by omega
    rw [harith] at ihc
    constructor
    · rw [List.replicate_succ]
      simp only [runCapture, hstep]
      exact ihc.1
    · rw [List.replicate_succ]
      simp only [runCapture, hstep, reopenCount, List.countP_cons]
      simpa [reopenCount] using ihc.2

/-- Splitting a capture run at a list append. -/
theorem runCapture_append (d : Driver) (l1 l2 : List ReadOutcome) :
    ∀ st, runCapture d st (l1 ++ l2) =
      ((runCapture d (runCapture d st l1).1 l2).1,
        (runCapture d st l1).2 ++ (runCapture d (runCapture d st l1).1 l2).2) := by
  induction l1 with
  | nil => intro st; simp [runCapture]
  | cons r rs ih => intro st; simp [runCapture, ih]

/-- Reopen counts add across an append of action lists. -/
theorem reopenCount_append (l1 l2 : List Action) :
    reopenCount (l1 ++ l2) = reopenCount l1 + reopenCount l2 :=
  List.countP_append _ _ _

/-- C1: starting from a state where the camera is open and the
consecutive-failure counter is 0, any run of fewer than 5 consecutive
failed reads performs no reopen and just counts them, while a run of
exactly 5 consecutive failed reads performs exactly one
release-and-reopen — using the handle's last known backend identifier
— and resets the counter to 0; a successful read resets the counter to
0 and publishes the frame. -/
theorem capture_loop_reopen_at_five (d : Driver) (st : SysState) (cap : CapHandle)
    (hc : st.camera = some cap) (ho : cap.isOpened = true) (h0 : st.failures = 0) :
    (∀ n, n < 5 →
      (runCapture d st (List.replicate n .failure)).1 = { st with failures := n } ∧
      reopenCount (runCapture d st (List.replicate n .failure)).2 = 0) ∧
    ((runCapture d st (List.replicate 5 .failure)).1 =
      { st with camera := some (d.openBackend cap.backend), failures := 0 } ∧
      reopenCount (runCapture d st (List.replicate 5 .failure)).2 = 1) ∧
    (∀ f, captureStep d st (.success f) =
      ({ st with failures := 0, frameBuffer := some f }, .published f)) := by
  obtain ⟨cam, buf, fl⟩ := st
  simp only at hc h0
  subst hc h0
  refine ⟨?_, ?_, ?_⟩
  · intro n hn
    have := runCapture_failures_below_threshold d cap buf ho n 0 (by omega)
    simpa using this
  · have hsplit : List.replicate 5 ReadOutcome.failure =
        List.replicate 4 ReadOutcome.failure ++ [ReadOutcome.failure] := rfl
    have h4 := runCapture_failures_below_threshold d cap buf ho 4 0 (by omega)
    have hlast : captureStep d ⟨some cap, buf, 4⟩ .failure =
        (⟨some (d.openBackend cap.backend), buf, 0⟩,
          .reopened cap.backend (d.openBackend cap.backend).isOpened) := by
      simp [captureStep, ho]
    have h40 : (runCapture d ⟨some cap, buf, 0⟩ (List.replicate 4 .failure)).1 =
        ⟨some cap, buf, 4⟩ := by simpa using h4.1
    rw [hsplit, runCapture_append]
    constructor
    · rw [h40]
      simp [runCapture, hlast]
    · rw [reopenCount_append, h4.2, h40]
      simp [runCapture, hlast, reopenCount]
  · intro f
    simp [captureStep, ho]

/-- Witness for C1: with the test driver, 4 failures only count, the
5th triggers the single reopen via backend id 200, and a success
resets the counter. -/
theorem capture_loop_reopen_at_five_witness :
    ((runCapture dTest ⟨some capOpen, none, 0⟩ (List.replicate 4 .failure)).1 =
      ⟨some capOpen, none, 4⟩ ∧
      reopenCount (runCapture dTest ⟨some capOpen, none, 0⟩
        (List.replicate 4 .failure)).2 = 0) ∧
    ((runCapture dTest ⟨some capOpen, none, 0⟩ (List.replicate 5 .failure)).1 =
      ⟨some capClosed, none, 0⟩ ∧
      reopenCount (runCapture dTest ⟨some capOpen, none, 0⟩
        (List.replicate 5 .failure)).2 = 1) ∧
    captureStep dTest ⟨some capOpen, none, 0⟩ (.success frame0) =
      (⟨some capOpen, some frame0, 0⟩, .published frame0) :=
  ⟨(capture_loop_reopen_at_five dTest ⟨some capOpen, none, 0⟩ capOpen rfl rfl rfl).1
      4 (by omega),
    (capture_loop_reopen_at_five dTest ⟨some capOpen, none, 0⟩ capOpen rfl rfl rfl).2.1,
    (capture_loop_reopen_at_five dTest ⟨some capOpen, none, 0⟩ capOpen rfl rfl rfl).2.2
      frame0⟩

/-- Counterexample to C8 as stated: when the reopen attempted after 5
consecutive failures yields a non-open handle, the next iteration does
not resume the failure-counting cycle — it takes the idle branch, so no
read is attempted and the counter stays at 0 instead of counting the
next failure. -/
theorem failed_reopen_idles_counterexample :
    (runCapture dTest ⟨some capOpen, none, 4⟩ [.failure, .failure]).2 =
      [.reopened 200 false, .idle] ∧
    (runCapture dTest ⟨some capOpen, none, 4⟩ [.failure, .failure]).1 =
      ⟨some capClosed, none, 0⟩ ∧
    (captureStep dTest ⟨some capClosed, none, 0⟩ .failure).2 = Action.idle ∧
    ¬ ((captureStep dTest ⟨some capClosed, none, 0⟩ .failure).1.failures = 0 + 1) :=
  ⟨rfl, rfl, rfl, by decide⟩

/-- C8 amended: when the reopen attempted after 5 consecutive failures
itself fails (the reopened handle is not open), the counter has been
reset to 0 but subsequent loop iterations do not attempt reads or count
failures: every iteration takes the idle branch and leaves the state
unchanged, until a device is opened again externally (e.g. via
`/connect`). -/
theorem failed_reopen_enters_idle (d : Driver) (st : SysState) (cap : CapHandle)
    (hc : st.camera = some cap) (ho : cap.isOpened = false) :
    (∀ r, captureStep d st r = (st, .idle)) ∧
    (∀ rs, runCapture d st rs = (st, List.replicate rs.length .idle)) := by
  have hstep : ∀ r, captureStep d st r = (st, .idle) := by
    intro r
    simp [captureStep, hc, ho]
  refine ⟨hstep, ?_⟩
  intro rs
  induction rs with
  | nil => rfl
  | cons r rest ih => simp [runCapture, hstep r, ih, List.replicate_succ]

/-- Witness for C8's amended claim: after the failed reopen of the
counterexample run, two more iterations idle and change nothing. -/
theorem failed_reopen_enters_idle_witness :
    (∀ r, captureStep dTest ⟨some capClosed, none, 0⟩ r =
      (⟨some capClosed, none, 0⟩, .idle)) ∧
    (∀ rs, runCapture dTest ⟨some capClosed, none, 0⟩ rs =
      (⟨some capClosed, none, 0⟩, List.replicate rs.length .idle)) :=
  failed_reopen_enters_idle dTest ⟨some capClosed, none, 0⟩ capClosed rfl rfl

end CameraCheck
